import Mathlib

/-!
Verification of the media-filtering session of `scripts/filter_photos.py`
(class `MacPhotosFilter`).

Shallow embedding conventions:
* timestamps are integers measured in days (the source uses `datetime`;
  only ordering and day offsets matter to the properties below);
* coordinates and distances are exact rationals (the source uses floats);
* the external collaborators (geocoder, media catalog, geodesic distance,
  image decoding, the filesystem) are passed in as explicit parameters:
  a geocoder `String → Except String (Option GeoLocation)` whose `error`
  case stands for an exception raised by the geocoding library, a list of
  media records standing for the catalog enumeration, a distance function
  `Rat × Rat → Rat × Rat → Rat` standing for the geodesic great-circle
  distance in kilometres, and a per-record success oracle standing for
  image decode/resize/write outcomes;
* fallible Python code (uncaught exceptions) is embedded in `Except`:
  calling a possibly-raising function without `try` is `Except.bind`.
-/

/-- A media record as enumerated by the media source
(`osxphotos.PhotoInfo` fields used by the script). -/
structure MediaRecord where
  filename : String
  date : Int
  location : Option (Rat × Rat)
  isphoto : Bool
  ismovie : Bool
  path : String
  deriving DecidableEq, Repr

/-- The `media_type` argument of `filter_media` (`"all" | "photo" | "video"`). -/
inductive MediaType where
  | all
  | photo
  | video
  deriving DecidableEq, Repr

/-- A successful geocoder lookup result (geopy `Location`). -/
structure GeoLocation where
  latitude : Rat
  longitude : Rat
  deriving DecidableEq, Repr

/-- The `defaults` table of the TOML config file. -/
structure Config where
  home_address : Option String
  target_latlon : Option (Rat × Rat)
  max_distance_km : Option Rat
  deriving DecidableEq, Repr

/-- The session state held by a `MacPhotosFilter` instance. -/
structure MacPhotosFilter where
  config : Config
  home_address : Option String
  max_distance_km : Rat
  start_date : Int
  end_date : Int
  target_location : Rat × Rat
  photos : List MediaRecord
  filtered_media : List MediaRecord
  deriving DecidableEq, Repr

/-- Embedding of `MacPhotosFilter.address_to_gps`: calls the external geocoder
(`Nominatim(...).geocode(address)`, which may raise — the source has no
exception handler, so an error propagates) and converts a match to a
`(latitude, longitude)` pair, a no-match to `none`. -/
def address_to_gps (geocode : String → Except String (Option GeoLocation))
    (address : String) : Except String (Option (Rat × Rat)) :=
  (geocode address).bind (fun location =>
    match location with
    | some loc => Except.ok (some (loc.latitude, loc.longitude))
    | none => Except.ok none)

/-- Embedding of `MacPhotosFilter.__init__`: resolves `max_distance_km`
(explicit argument, else config value, else 2.0), the date range
(`end_date` defaults to now minus one day), and the target location
(explicit argument, else config `target_latlon`, else geocoded
`home_address`, else `ValueError`); a geocode miss on `home_address`
raises `ValueError`, and an empty-string `home_address` is falsy in
Python so it falls through to the final `ValueError`. An `Except.error`
result means no session object is constructed, so no filtering can occur. -/
def MacPhotosFilter.init (geocode : String → Except String (Option GeoLocation))
    (photosdb : List MediaRecord) (now : Int)
    (start_date : Int) (end_date : Option Int)
    (target_location : Option (Rat × Rat))
    (config : Config) (max_distance_km : Option Rat) :
    Except String MacPhotosFilter :=
  let home_address := config.home_address
  let maxd : Rat :=
    match max_distance_km with
    | some d => d
    | none =>
      match config.max_distance_km with
      | some d => d
      | none => 2
  let ed : Int :=
    match end_date with
    | some e => e
    | none => now - 1
  let finish : Rat × Rat → Except String MacPhotosFilter := fun t =>
    Except.ok
      { config := config, home_address := home_address,
        max_distance_km := maxd, start_date := start_date, end_date := ed,
        target_location := t, photos := photosdb, filtered_media := [] }
  match target_location with
  | some t => finish t
  | none =>
    match config.target_latlon with
    | some t => finish t
    | none =>
      match home_address with
      | some addr =>
        if addr = "" then
          Except.error
            "Must specify either target_location or home_address or target_latlon in config"
        else
          match address_to_gps geocode addr with
          | Except.ok (some coords) => finish coords
          | Except.ok none => Except.error "Could not geocode home_address"
          | Except.error e => Except.error e
      | none =>
        Except.error
          "Must specify either target_location or home_address or target_latlon in config"

/-- Embedding of `set_date_range(start_date, end_date=None)`. -/
def set_date_range (s : MacPhotosFilter) (now : Int)
    (start_date : Int) (end_date : Option Int) : MacPhotosFilter :=
  { s with
    start_date := start_date,
    end_date :=
      match end_date with
      | some e => e
      | none => now - 1 }

/-- Embedding of `set_location_by_address(address)`: geocodes, updates
`target_location` and returns `True` on a match, returns `False`
otherwise; an exception from the geocoder propagates. -/
def set_location_by_address (geocode : String → Except String (Option GeoLocation))
    (s : MacPhotosFilter) (address : String) :
    Except String (Bool × MacPhotosFilter) :=
  (address_to_gps geocode address).bind (fun coords =>
    match coords with
    | some c => Except.ok (true, { s with target_location := c })
    | none => Except.ok (false, s))

/-- Embedding of `set_location_by_gps(lat, lon)` (unconditional). -/
def set_location_by_gps (s : MacPhotosFilter) (lat lon : Rat) : MacPhotosFilter :=
  { s with target_location := (lat, lon) }

/-- Embedding of `set_distance_km(distance)` (unconditional, no validation). -/
def set_distance_km (s : MacPhotosFilter) (distance : Rat) : MacPhotosFilter :=
  { s with max_distance_km := distance }

/-- Embedding of `filter_media(media_type)`: first retains records in the inclusive
date range whose kind matches (`"all"` matches everything), then of
those the records that have a location whose geodesic distance to
`target_location` is at most `max_distance_km`; stores and returns the
result. `dist` is the external `geopy.distance.geodesic(...).km`. -/
def filter_media (dist : Rat × Rat → Rat × Rat → Rat)
    (s : MacPhotosFilter) (media_type : MediaType) :
    List MediaRecord × MacPhotosFilter :=
  let media := s.photos.filter (fun p =>
    decide (s.start_date ≤ p.date) && decide (p.date ≤ s.end_date) &&
      (media_type == MediaType.all
        || (media_type == MediaType.photo && p.isphoto)
        || (media_type == MediaType.video && p.ismovie)))
  let filtered := media.filter (fun m =>
    match m.location with
    | some loc => decide (dist s.target_location (loc.1, loc.2) ≤ s.max_distance_km)
    | none => false)
  (filtered, { s with filtered_media := filtered })

/-- Embedding of `clear_filters()`. -/
def clear_filters (s : MacPhotosFilter) : MacPhotosFilter :=
  { s with filtered_media := [] }

/-! Concrete instances used by witnesses. -/

/-- A concrete media record for witnesses. -/
def recW : MediaRecord :=
  { filename := "w.jpg", date := -1, location := some (0, 0), isphoto := true,
    ismovie := false, path := "/tmp/w.jpg" }

/-- A concrete config for witnesses. -/
def cfgW : Config :=
  { home_address := none, target_latlon := some (1, 2), max_distance_km := some 10 }

/-- A concrete session state for witnesses. -/
def sW : MacPhotosFilter :=
  { config := cfgW, home_address := none, max_distance_km := 10, start_date := -3,
    end_date := 0, target_location := (0, 0), photos := [recW], filtered_media := [] }

/-- A distance function for witnesses: everything is 0 km apart. -/
def distW : Rat × Rat → Rat × Rat → Rat := fun _ _ => 0

/-- A geocoder stub that always fails with a network error (raises). -/
def geocodeNetworkFailure : String → Except String (Option GeoLocation) :=
  fun _ => Except.error "geocoder network failure"

/-- A geocoder stub that always reports no match. -/
def geocodeNone : String → Except String (Option GeoLocation) :=
  fun _ => Except.ok none

/-- A geocoder stub that always resolves to (7, 8). -/
def geocodeHit : String → Except String (Option GeoLocation) :=
  fun _ => Except.ok (some { latitude := 7, longitude := 8 })

/-- C4: calling `filter_media` a second time with the same `media_type`,
the same external distance function, and the session state left by the
first call yields the same result list and the same session state
(in particular the same stored FilteredSet). -/
theorem filter_media_idempotent (dist : Rat × Rat → Rat × Rat → Rat)
    (s : MacPhotosFilter) (media_type : MediaType) :
    filter_media dist (filter_media dist s media_type).2 media_type =
      filter_media dist s media_type := rfl

/-- C8: `clear_filters` empties the stored FilteredSet and changes no
filter criterion (start date, end date, target location, max distance)
nor any other session field. -/
theorem clear_filters_spec (s : MacPhotosFilter) :
    (clear_filters s).filtered_media = [] ∧
    (clear_filters s).start_date = s.start_date ∧
    (clear_filters s).end_date = s.end_date ∧
    (clear_filters s).target_location = s.target_location ∧
    (clear_filters s).max_distance_km = s.max_distance_km ∧
    (clear_filters s).photos = s.photos ∧
    (clear_filters s).home_address = s.home_address ∧
    (clear_filters s).config = s.config :=
  ⟨rfl, rfl, rfl, rfl, rfl, rfl, rfl, rfl⟩

/-- C1: a record enumerated by the media source is in the result of
`filter_media` iff it has coordinates whose distance to the target is at
most `max_distance_km` (inclusive), its date lies in the inclusive range
`[start_date, end_date]`, and its kind matches the requested media type
(`all` matches everything); a record lacking coordinates is never
included, regardless of date or kind. -/
theorem filter_media_membership (dist : Rat × Rat → Rat × Rat → Rat)
    (s : MacPhotosFilter) (mt : MediaType) (r : MediaRecord)
    (h : r ∈ s.photos) :
    (r ∈ (filter_media dist s mt).1 ↔
      (∃ loc, r.location = some loc ∧
        dist s.target_location loc ≤ s.max_distance_km) ∧
      (s.start_date ≤ r.date ∧ r.date ≤ s.end_date) ∧
      (mt = MediaType.all ∨ (mt = MediaType.photo ∧ r.isphoto = true) ∨
        (mt = MediaType.video ∧ r.ismovie = true))) ∧
    (r.location = none → r ∉ (filter_media dist s mt).1) := by
  have key : r ∈ (filter_media dist s mt).1 ↔
      ((s.start_date ≤ r.date ∧ r.date ≤ s.end_date) ∧
        (mt = MediaType.all ∨ (mt = MediaType.photo ∧ r.isphoto = true) ∨
          (mt = MediaType.video ∧ r.ismovie = true))) ∧
      (∃ loc, r.location = some loc ∧
        dist s.target_location loc ≤ s.max_distance_km) := by
    simp only [filter_media, List.mem_filter, Bool.and_eq_true, decide_eq_true_eq,
      Bool.or_eq_true, beq_iff_eq]
    cases hloc : r.location with
    | none => simp [h, hloc]
    | some loc =>
      simp [h, hloc]
      tauto
  constructor
  · rw [key]; tauto
  · intro hnone hmem
    rcases (key.mp hmem).2 with ⟨loc, hl, -⟩
    rw [hnone] at hl
    cases hl

/-- C1 witness: in the concrete session `sW` the record `recW` is
accepted by `filter_media` with media type `all`. -/
theorem filter_media_membership_witness :
    recW ∈ (filter_media distW sW MediaType.all).1 :=
  (filter_media_membership distW sW MediaType.all recW (by simp [sW])).1.mpr
    ⟨⟨(0, 0), rfl, by norm_num [distW, sW]⟩, ⟨by decide, by decide⟩, Or.inl rfl⟩

/-- C2: target-location resolution at construction follows the fixed
priority order: an explicit argument wins; else the config's
`target_latlon`; else geocoding the config's `home_address` (a match
sets the target, a miss fails construction with the geocode error
message, a geocoder exception propagates); and with no source available
(no `home_address`, or the falsy empty string) construction fails with
an error. An `Except.error` result carries no session state, so no
filtering can occur after a failed construction. -/
theorem init_target_resolution
    (geocode : String → Except String (Option GeoLocation))
    (photosdb : List MediaRecord) (now start_date : Int)
    (end_date : Option Int) (config : Config) (maxd : Option Rat) :
    (∀ t, (MacPhotosFilter.init geocode photosdb now start_date end_date
        (some t) config maxd).map (fun s => s.target_location) = Except.ok t) ∧
    (∀ t, config.target_latlon = some t →
      (MacPhotosFilter.init geocode photosdb now start_date end_date
        none config maxd).map (fun s => s.target_location) = Except.ok t) ∧
    (∀ addr loc, config.target_latlon = none → config.home_address = some addr →
      ¬ addr = "" → geocode addr = Except.ok (some loc) →
      (MacPhotosFilter.init geocode photosdb now start_date end_date
        none config maxd).map (fun s => s.target_location) =
        Except.ok (loc.latitude, loc.longitude)) ∧
    (∀ addr, config.target_latlon = none → config.home_address = some addr →
      ¬ addr = "" → geocode addr = Except.ok none →
      MacPhotosFilter.init geocode photosdb now start_date end_date
        none config maxd = Except.error "Could not geocode home_address") ∧
    (∀ addr e, config.target_latlon = none → config.home_address = some addr →
      ¬ addr = "" → geocode addr = Except.error e →
      MacPhotosFilter.init geocode photosdb now start_date end_date
        none config maxd = Except.error e) ∧
    (config.target_latlon = none →
      (config.home_address = none ∨ config.home_address = some "") →
      MacPhotosFilter.init geocode photosdb now start_date end_date
        none config maxd =
        Except.error
          "Must specify either target_location or home_address or target_latlon in config") := by
  refine ⟨?_, ?_, ?_, ?_, ?_, ?_⟩
  · intro t
    simp [MacPhotosFilter.init, Except.map]
  · intro t hlatlon
    simp [MacPhotosFilter.init, hlatlon, Except.map]
  · intro addr loc hlatlon hhome haddr hgeo
    simp [MacPhotosFilter.init, hlatlon, hhome, haddr, hgeo,
      address_to_gps, Except.bind, Except.map]
  · intro addr hlatlon hhome haddr hgeo
    simp [MacPhotosFilter.init, hlatlon, hhome, haddr, hgeo,
      address_to_gps, Except.bind, Except.map]
  · intro addr e hlatlon hhome haddr hgeo
    simp [MacPhotosFilter.init, hlatlon, hhome, haddr, hgeo,
      address_to_gps, Except.bind, Except.map]
  · intro hlatlon hhome
    rcases hhome with hhome | hhome <;>
      simp [MacPhotosFilter.init, hlatlon, hhome, Except.map]

/-- C2 witness: with no explicit target, the config's `target_latlon`
of `cfgW` resolves the target location to (1, 2). -/
theorem init_target_resolution_witness :
    (MacPhotosFilter.init geocodeNone [] 0 0 none none cfgW none).map
      (fun s => s.target_location) = Except.ok (1, 2) :=
  (init_target_resolution geocodeNone [] 0 0 none cfgW none).2.1 (1, 2) rfl

/-- C3: `set_location_by_address` returns `False` and leaves the whole
session state (in particular `target_location`) unchanged when the
geocode finds no coordinates, and returns `True` with `target_location`
set to exactly the resolved pair — every other field unchanged — when
the geocode succeeds. -/
theorem set_location_by_address_spec
    (geocode : String → Except String (Option GeoLocation))
    (s : MacPhotosFilter) (address : String) :
    (address_to_gps geocode address = Except.ok none →
      set_location_by_address geocode s address = Except.ok (false, s)) ∧
    (∀ c, address_to_gps geocode address = Except.ok (some c) →
      set_location_by_address geocode s address =
        Except.ok (true, { s with target_location := c })) := by
  constructor
  · intro h
    simp [set_location_by_address, h, Except.bind]
  · intro c h
    simp [set_location_by_address, h, Except.bind]

/-- C3 witness: with a geocoder that resolves to (7, 8),
`set_location_by_address` returns `True` and updates only the target. -/
theorem set_location_by_address_spec_witness :
    set_location_by_address geocodeHit sW "addr" =
      Except.ok (true, { sW with target_location := (7, 8) }) :=
  (set_location_by_address_spec geocodeHit sW "addr").2 (7, 8) rfl

/-- C9 counterexample: `address_to_gps` has no exception handler, so a
network error raised by the geocoding library propagates to the caller
instead of being converted to `none`. -/
theorem address_to_gps_error_propagates :
    address_to_gps geocodeNetworkFailure "1 Example Street" =
      Except.error "geocoder network failure" ∧
    address_to_gps geocodeNetworkFailure "1 Example Street" ≠
      Except.ok none := by
  refine ⟨rfl, ?_⟩
  intro hcontra
  simp [address_to_gps, geocodeNetworkFailure, Except.bind] at hcontra

/-- C9 (amended): `address_to_gps` returns `none` (without raising) when
the lookup finds no match, returns the (latitude, longitude) pair when
the lookup finds a match, and propagates a geocoder exception to the
caller. -/
theorem address_to_gps_spec
    (geocode : String → Except String (Option GeoLocation))
    (address : String) :
    (geocode address = Except.ok none →
      address_to_gps geocode address = Except.ok none) ∧
    (∀ loc, geocode address = Except.ok (some loc) →
      address_to_gps geocode address =
        Except.ok (some (loc.latitude, loc.longitude))) ∧
    (∀ e, geocode address = Except.error e →
      address_to_gps geocode address = Except.error e) := by
  refine ⟨?_, ?_, ?_⟩
  · intro h
    simp [address_to_gps, h, Except.bind]
  · intro loc h
    simp [address_to_gps, h, Except.bind]
  · intro e h
    simp [address_to_gps, h, Except.bind]

/-- C9 witness: a no-match lookup yields `none` without an error. -/
theorem address_to_gps_spec_witness :
    address_to_gps geocodeNone "addr" = Except.ok none :=
  (address_to_gps_spec geocodeNone "addr").1 rfl

/-- The filename of a thumbnail: `thumb_{count}_{filename}`. -/
def thumb_file (count : Nat) (filename : String) : String :=
  "thumb_" ++ toString count ++ "_" ++ filename

/-- One loop iteration outcome of `save_thumbnails`: either a thumbnail
file was written (`wrote file filename`), or the decode/resize/write
for the record failed, was caught and logged, and the loop continued
(`failed filename`, the logged record filename). -/
inductive ThumbEvent where
  | wrote (file : String) (filename : String)
  | failed (filename : String)
  deriving DecidableEq, Repr

/-- Embedding of `save_thumbnails(out_dir, thumb_size, max_media)`: walks the stored
FilteredSet in order with a success counter starting at 0, breaking
when the counter reaches `max_media`; a successful record is written to
`thumb_{count}_{filename}` and increments the counter, a failing record
is caught and logged and does not increment it. The external image
decode/resize/write outcome for each record is the oracle `ok`. -/
def save_thumbnails (ok : MediaRecord → Bool) (filtered : List MediaRecord)
    (count : Nat) (max_media : Nat) : List ThumbEvent :=
  match filtered with
  | [] => []
  | media :: rest =>
    if max_media ≤ count then []
    else if ok media then
      ThumbEvent.wrote (thumb_file count media.filename) media.filename ::
        save_thumbnails ok rest (count + 1) max_media
    else
      ThumbEvent.failed media.filename :: save_thumbnails ok rest count max_media

/-- The thumbnail files actually written during a run. -/
def writtenFiles : List ThumbEvent → List String
  | [] => []
  | ThumbEvent.wrote file _ :: es => file :: writtenFiles es
  | ThumbEvent.failed _ :: es => writtenFiles es

/-- The record filename an event was about (written or logged). -/
def eventFilename : ThumbEvent → String
  | ThumbEvent.wrote _ filename => filename
  | ThumbEvent.failed filename => filename

lemma save_thumbnails_written_general (ok : MediaRecord → Bool)
    (l : List MediaRecord) (c maxm : Nat) :
    writtenFiles (save_thumbnails ok l c maxm) =
      (List.enumFrom c ((l.filter ok).take (maxm - c))).map
        (fun p => thumb_file p.1 p.2.filename) := by
  induction l generalizing c with
  | nil => simp [save_thumbnails, writtenFiles]
  | cons m rest ih =>
    by_cases hc : maxm ≤ c
    · have h0 : maxm - c = 0 := Nat.sub_eq_zero_of_le hc
      simp [save_thumbnails, hc, h0, writtenFiles]
    · have hsub : maxm - c = (maxm - (c + 1)) + 1 := by omega
      by_cases hok : ok m
      · simp [save_thumbnails, hc, hok, writtenFiles, List.filter_cons, hsub,
          List.take_succ_cons, List.enumFrom, ih]
      · simp [save_thumbnails, hc, hok, writtenFiles, List.filter_cons, ih]

lemma save_thumbnails_processes_all (ok : MediaRecord → Bool)
    (l : List MediaRecord) :
    ∀ c maxm : Nat, c + l.length ≤ maxm →
      (save_thumbnails ok l c maxm).map eventFilename =
        l.map MediaRecord.filename := by
  induction l with
  | nil =>
    intro c maxm h
    simp [save_thumbnails]
  | cons m rest ih =>
    intro c maxm h
    simp only [List.length_cons] at h
    have hc : ¬ maxm ≤ c := by omega
    by_cases hok : ok m
    · simp [save_thumbnails, hc, hok, eventFilename,
        ih (c + 1) maxm (by omega)]
    · simp [save_thumbnails, hc, hok, eventFilename,
        ih c maxm (by omega)]

/-- C6: starting from counter 0, the thumbnails written are exactly the
first `max_media` records of the FilteredSet (in stored order) for
which decode/resize/write succeeds, the k-th written thumbnail (k
counted from 0) being named with the success counter k — so a failed
record is skipped without consuming a naming slot; the number written
is `min max_media` (number of succeeding records); and when the
FilteredSet has at most `max_media` records every record is processed
(one written-or-logged event per record, in order). -/
theorem save_thumbnails_spec (ok : MediaRecord → Bool)
    (l : List MediaRecord) (maxm : Nat) :
    writtenFiles (save_thumbnails ok l 0 maxm) =
      (List.enumFrom 0 ((l.filter ok).take maxm)).map
        (fun p => thumb_file p.1 p.2.filename) ∧
    (writtenFiles (save_thumbnails ok l 0 maxm)).length =
      min maxm (l.filter ok).length ∧
    (l.length ≤ maxm →
      (save_thumbnails ok l 0 maxm).map eventFilename =
        l.map MediaRecord.filename) := by
  refine ⟨?_, ?_, ?_⟩
  · have h := save_thumbnails_written_general ok l 0 maxm
    simpa using h
  · have h := save_thumbnails_written_general ok l 0 maxm
    rw [h]
    simp [List.length_take]
  · intro h
    exact save_thumbnails_processes_all ok l 0 maxm (by omega)

/-- C6 witness: with a single succeeding record and `max_media = 10`,
the one record is processed and written as `thumb_0_w.jpg`. -/
theorem save_thumbnails_spec_witness :
    (save_thumbnails (fun _ => true) [recW] 0 10).map eventFilename =
      [recW].map MediaRecord.filename :=
  (save_thumbnails_spec (fun _ => true) [recW] 10).2.2 (by decide)

/-- Embedding of `save_filtered_media_paths(filepath)`: the sequence of lines written,
one `f"{media.path}\n"` per record of the FilteredSet, in stored order. -/
def save_filtered_media_paths (s : MacPhotosFilter) : List String :=
  s.filtered_media.map (fun media => media.path ++ "\n")

/-- Opening with mode "w" truncates: the prior file content is discarded. -/
def opened_for_write (_prior : String) : String := ""

/-- The file content at `filepath` after `save_filtered_media_paths`,
given the prior content of an existing file there. -/
def save_filtered_media_paths_file (prior : String) (s : MacPhotosFilter) : String :=
  List.foldl (fun acc line => acc ++ line) (opened_for_write prior)
    (save_filtered_media_paths s)

/-- C7: `save_filtered_media_paths` writes exactly one line per record
of the FilteredSet — line i being the path of record i followed by a
newline, in stored order — and the resulting file content is the
concatenation of those lines, independent of whatever file previously
existed at the path (it is overwritten). -/
theorem save_filtered_media_paths_spec (s : MacPhotosFilter)
    (prior prior2 : String) (i : Nat) :
    (save_filtered_media_paths s).length = s.filtered_media.length ∧
    (save_filtered_media_paths s)[i]? =
      (s.filtered_media[i]?).map (fun media => media.path ++ "\n") ∧
    save_filtered_media_paths_file prior s =
      save_filtered_media_paths_file prior2 s ∧
    save_filtered_media_paths_file prior s =
      String.join (save_filtered_media_paths s) := by
  refine ⟨?_, ?_, rfl, rfl⟩
  · simp [save_filtered_media_paths]
  · simp [save_filtered_media_paths, List.getElem?_map]

/-! The concrete three-record scenario of the spec and the repository's
tests: target (−33.85, 151.15), radius 10 km, date window
[now − 3 days, now], with `now` taken as day 0. -/

/-- Scenario record (a): photo, 1 day old, at (−33.85, 151.15). -/
def recA : MediaRecord :=
  { filename := "a.jpg", date := -1, location := some (-677/20, 3023/20),
    isphoto := true, ismovie := false, path := "/tmp/a.jpg" }

/-- Scenario record (b): photo, 2 days old, at (−33.90, 151.20). -/
def recB : MediaRecord :=
  { filename := "b.jpg", date := -2, location := some (-339/10, 756/5),
    isphoto := true, ismovie := false, path := "/tmp/b.jpg" }

/-- Scenario record (c): video, 1 day old, at (−33.85, 151.15). -/
def recC : MediaRecord :=
  { filename := "c.mov", date := -1, location := some (-677/20, 3023/20),
    isphoto := false, ismovie := true, path := "/tmp/c.mov" }

/-- The scenario session state: target (−33.85, 151.15), 10 km radius,
window [now − 3, now]. -/
def scenarioState : MacPhotosFilter :=
  { config := { home_address := none, target_latlon := none, max_distance_km := none },
    home_address := none, max_distance_km := 10, start_date := -3, end_date := 0,
    target_location := (-677/20, 3023/20),
    photos := [recA, recB, recC], filtered_media := [] }

/-- Modelled from the spec: the external Distance Calculator
(`geopy.distance.geodesic(...).km`, great-circle distance on an
ellipsoidal Earth model), restricted to the coordinate pairs of the
concrete scenario. Coincident coordinates are 0 km apart, and the
remaining pair occurring in the scenario, (−33.85, 151.15) to
(−33.90, 151.20), is about 7.22 km apart on the WGS-84 ellipsoid
(0.05° of latitude ≈ 5.55 km and 0.05° of longitude ≈ 4.63 km at that
latitude) — well inside the 10 km radius. -/
def geodesicScenario (p q : Rat × Rat) : Rat :=
  if p = q then 0 else 361/50

/-- C5 counterexample: in the concrete scenario
`filter_media("photo")` does NOT return `[a]` — record (b), about
7.22 km from the target, also passes the 10 km radius and the date
window, so the result is `[a, b]`. (The repository's own tests
`test_filter_photos_in_range` and `test_filter_all_in_range` assert the
claimed counts and fail against this behaviour.) -/
theorem filter_media_scenario_counterexample :
    (filter_media geodesicScenario scenarioState MediaType.photo).1 =
      [recA, recB] ∧
    ([recA, recB] : List MediaRecord) ≠ [recA] := by
  have h0 : geodesicScenario (-677/20, 3023/20) (-677/20, 3023/20) ≤ 10 := by
    norm_num [geodesicScenario]
  have hb : geodesicScenario (-677/20, 3023/20) (-339/10, 756/5) ≤ 10 := by
    norm_num [geodesicScenario]
  constructor
  · simp [filter_media, scenarioState, recA, recB, recC, h0, hb]
  · simp

/-- C5 (amended): for any distance function placing both scenario
locations within the 10 km radius (as the true geodesic distance does:
0 km and ≈ 7.22 km), `filter_media "photo"` returns `[a, b]`,
`filter_media "video"` returns `[c]`, and `filter_media "all"` returns
`[a, b, c]`; and in general the result of `filter_media` is an
order-preserving subsequence of the media-source enumeration. -/
theorem filter_media_scenario (dist : Rat × Rat → Rat × Rat → Rat)
    (h0 : dist (-677/20, 3023/20) (-677/20, 3023/20) ≤ 10)
    (hb : dist (-677/20, 3023/20) (-339/10, 756/5) ≤ 10) :
    (filter_media dist scenarioState MediaType.photo).1 = [recA, recB] ∧
    (filter_media dist scenarioState MediaType.video).1 = [recC] ∧
    (filter_media dist scenarioState MediaType.all).1 = [recA, recB, recC] ∧
    (∀ (d2 : Rat × Rat → Rat × Rat → Rat) (s2 : MacPhotosFilter)
      (mt2 : MediaType), List.Sublist (filter_media d2 s2 mt2).1 s2.photos) := by
  refine ⟨?_, ?_, ?_, ?_⟩
  · simp [filter_media, scenarioState, recA, recB, recC, h0, hb]
  · simp [filter_media, scenarioState, recA, recB, recC, h0, hb]
  · simp [filter_media, scenarioState, recA, recB, recC, h0, hb]
  · intro d2 s2 mt2
    exact (List.filter_sublist _).trans (List.filter_sublist _)

/-- C5 witness: instantiating the distance function with the modelled
geodesic values yields the amended scenario results. -/
theorem filter_media_scenario_witness :
    (filter_media geodesicScenario scenarioState MediaType.video).1 = [recC] :=
  (filter_media_scenario geodesicScenario (by norm_num [geodesicScenario])
    (by norm_num [geodesicScenario])).2.1

/-- The session state constructed by `MacPhotosFilter.init` from
`cfgW` with explicit target (1, 2) (used to exhibit reachability). -/
def sInit : MacPhotosFilter :=
  { config := cfgW, home_address := none, max_distance_km := 10, start_date := 0,
    end_date := -1, target_location := (1, 2), photos := [], filtered_media := [] }

/-- C10 counterexample: `set_distance_km` accepts any value without
validation, so from a freshly constructed session (max distance 10 from
the config) the call `set_distance_km(-1)` reaches a session state with
a non-positive `max_distance_km`. -/
theorem set_distance_km_nonpositive_counterexample :
    MacPhotosFilter.init geocodeNone [] 0 0 none (some (1, 2)) cfgW none =
      Except.ok sInit ∧
    (set_distance_km sInit (-1)).max_distance_km ≤ 0 := by
  constructor
  · rfl
  · norm_num [set_distance_km, sInit]

/-- C10 (amended): `max_distance_km` is positive after construction
provided the explicit argument (when given) and the config value (when
used) are positive — the built-in default 2.0 is positive — and every
session operation except `set_distance_km` preserves it;
`set_distance_km` stores exactly its argument, unconditionally and with
no positivity check, so the invariant extends to reachable states only
when every `set_distance_km` argument is itself positive. -/
theorem max_distance_km_conditional_invariant
    (geocode : String → Except String (Option GeoLocation))
    (photosdb : List MediaRecord) (now start_date : Int)
    (end_date : Option Int) (tl : Option (Rat × Rat)) (config : Config)
    (md : Option Rat) (dist : Rat × Rat → Rat × Rat → Rat)
    (s : MacPhotosFilter) (mt : MediaType) (d lat lon : Rat)
    (now2 sd2 : Int) (ed2 : Option Int) (address : String) :
    ((∀ x, md = some x → 0 < x) →
      (∀ x, config.max_distance_km = some x → 0 < x) →
      ∀ s0, MacPhotosFilter.init geocode photosdb now start_date end_date
        tl config md = Except.ok s0 → 0 < s0.max_distance_km) ∧
    (set_distance_km s d).max_distance_km = d ∧
    (filter_media dist s mt).2.max_distance_km = s.max_distance_km ∧
    (clear_filters s).max_distance_km = s.max_distance_km ∧
    (set_location_by_gps s lat lon).max_distance_km = s.max_distance_km ∧
    (set_date_range s now2 sd2 ed2).max_distance_km = s.max_distance_km ∧
    (∀ (b : Bool) (s1 : MacPhotosFilter),
      set_location_by_address geocode s address = Except.ok (b, s1) →
      s1.max_distance_km = s.max_distance_km) := by
  refine ⟨?_, rfl, rfl, rfl, rfl, rfl, ?_⟩
  · intro hmd hcfg s0 hinit
    have hmaxd : 0 < (match md with
        | some d => d
        | none =>
          match config.max_distance_km with
          | some d => d
          | none => (2 : Rat)) := by
      cases md with
      | some x => exact hmd x rfl
      | none =>
        cases hcm : config.max_distance_km with
        | some x => exact hcfg x hcm
        | none => norm_num
    simp only [MacPhotosFilter.init] at hinit
    split at hinit
    · cases hinit
      exact hmaxd
    · split at hinit
      · cases hinit
        exact hmaxd
      · split at hinit
        · split at hinit
          · exact Except.noConfusion hinit
          · split at hinit
            · cases hinit
              exact hmaxd
            · exact Except.noConfusion hinit
            · exact Except.noConfusion hinit
        · exact Except.noConfusion hinit
  · intro b s1 h1
    unfold set_location_by_address at h1
    cases hga : address_to_gps geocode address with
    | error e =>
      rw [hga] at h1
      exact Except.noConfusion h1
    | ok co =>
      rw [hga] at h1
      cases co with
      | some c =>
        simp only [Except.bind] at h1
        cases h1
        rfl
      | none =>
        simp only [Except.bind] at h1
        cases h1
        rfl

/-- C10 witness: from the config value 10 the constructed session has a
positive max distance, and `set_distance_km` stores exactly its
argument. -/
theorem max_distance_km_conditional_invariant_witness :
    0 < sInit.max_distance_km ∧
    (set_distance_km sInit 5).max_distance_km = 5 := by
  constructor
  · exact (max_distance_km_conditional_invariant geocodeNone [] 0 0 none
      (some (1, 2)) cfgW none distW sInit MediaType.all 5 0 0 0 0 none "a").1
      (fun x hx => Option.noConfusion hx)
      (fun x hx => by cases hx; norm_num)
      sInit rfl
  · exact (max_distance_km_conditional_invariant geocodeNone [] 0 0 none
      (some (1, 2)) cfgW none distW sInit MediaType.all 5 0 0 0 0 none "a").2.1
